import Mathlib

/-
Verification of the Asguard risk scoring and escalation engine.

The engine (services/risk_engine.go) computes a weighted rule-based fraud
score for a transaction, maps it to a level, and for scores at or above 40
consults an external advisory service (services/ai_service.go), merging the
advisory opinion into the final verdict.

The Go code computes the score in IEEE-754 double precision (float64) and
truncates with int(score * 100).  Every float64 value reachable in that
computation is a dyadic rational that is an integer multiple of 2^(-60), so
we model a float64 value by the natural number n with value n / 2^60, and we
model each float64 operation by exact integer arithmetic followed by
rounding to 53 significant bits (round to nearest, ties to even), which is
exactly the IEEE-754 binary64 rounding for the magnitudes that occur here
(all well inside the normal range).
-/

namespace Asguard

/-! ### Fixed-point model of float64 arithmetic

A value `n : ℕ` represents the real number `n / 2^60`.  `fixRound num den`
is the float64 nearest to the rational `num / den` (ties to even), in this
representation.  It is correct for `num / den = 0` or `2^(-8) ≤ num / den
< 2^64`, which covers every value arising in the scoring pipeline. -/

/-- Round the nonnegative rational `num / den` to the nearest float64
(ties to even), returned in units of `2^(-60)`.  `j` is the binary exponent
of the value, offset by 60; the significand `m` has 53 bits. -/
def fixRound (num den : ℕ) : ℕ :=
  if num = 0 then 0
  else
    let j := (List.range 124).foldl (fun acc jj => if 2 ^ jj * den ≤ num * 2 ^ 60 then jj else acc) 0
    let P := num * 2 ^ 112
    let D := den * 2 ^ j
    let q := P / D
    let r := P % D
    let m := if 2 * r < D then q else if D < 2 * r then q + 1 else if q % 2 = 0 then q else q + 1
    m * 2 ^ j / 2 ^ 52

/-- float64 multiplication on fixed-point values (`x·y / 2^120`, rounded). -/
def fmul (x y : ℕ) : ℕ := fixRound (x * y) (2 ^ 120)

/-- float64 addition on fixed-point values (`(x+y) / 2^60`, rounded; for the
magnitudes in this pipeline the sum needs rounding exactly when it has more
than 53 significant bits). -/
def fadd (x y : ℕ) : ℕ := fixRound (x + y) (2 ^ 60)

/-- The float64 value of the Go literal `0.15` (weight of the device, IP and
location rules). -/
def f015 : ℕ := fixRound 15 100

/-- The float64 value of the Go literal `0.20` (weight of the currency rule). -/
def f020 : ℕ := fixRound 20 100

/-- The float64 value of the Go literal `0.35` (weight of the amount rule). -/
def f035 : ℕ := fixRound 35 100

/-- The float64 value of the Go literal `0.3` (middle amount tier risk). -/
def f03 : ℕ := fixRound 3 10

/-- The float64 value of the Go literal `0.6` (high amount tier risk). -/
def f06 : ℕ := fixRound 6 10

/-- The float64 value of `1.0` (exact). -/
def f1 : ℕ := fixRound 1 1

/-- The float64 value of `100` (exact), used in `int(score * 100)`. -/
def f100 : ℕ := fixRound 100 1

/-! ### Data model (package services) -/

/-- TransactionData (services/risk_engine.go).  `amount` is a Go float64;
we model it as a rational, which contains the float64 values and on which
the three tier comparisons agree with their float64 counterparts. -/
structure TransactionData where
  userID : String
  transactionID : String
  amount : ℚ
  currency : String
  ipAddress : String
  deviceID : String
  location : String

/-- AIResult (services/ai_service.go): the structured advisory opinion. -/
structure AIResult where
  fraudProbability : ℚ
  recommendedAction : String
  reasoning : String
  confidence : ℚ

/-- RiskResult (services/risk_engine.go): the verdict returned by
`CalculateRisk`. -/
structure RiskResult where
  score : ℤ
  level : String
  reasons : List String
  aiTriggered : Bool
  aiConfidence : ℚ
  aiSummary : String
  aiRecommendation : String
  aiFraudProbability : ℚ

/-! ### Rule scorer (services/risk_engine.go, rule section of CalculateRisk)

Each Go rule sets a risk value and appends a reason inside one conditional;
we translate each conditional into a pair of definitions, one for the float
risk value and one for the appended reasons, with identical guards. -/

/-- Rule 1 risk value: tiered amount risk (`switch` on `tx.Amount`). -/
def amountRisk (amount : ℚ) : ℕ :=
  if 500000 < amount then f1
  else if 100000 < amount then f06
  else if 50000 < amount then f03
  else 0

/-- Rule 1 reasons: reason strings appended by the amount `switch`. -/
def amountReasons (amount : ℚ) : List String :=
  if 500000 < amount then ["Very high transaction amount (>500k)"]
  else if 100000 < amount then ["High transaction amount (>100k)"]
  else if 50000 < amount then ["Elevated transaction amount (>50k)"]
  else []

/-- Rule 2 risk value: 1.0 when the currency is not the home currency NGN. -/
def currencyRisk (currency : String) : ℕ :=
  if currency ≠ "NGN" then f1 else 0

/-- Rule 2 reasons. -/
def currencyReasons (currency : String) : List String :=
  if currency ≠ "NGN" then ["Foreign currency transaction (" ++ currency ++ ")"] else []

/-- Rule 3 risk value: 1.0 when the device identifier is empty. -/
def deviceRisk (deviceID : String) : ℕ :=
  if deviceID = "" then f1 else 0

/-- Rule 3 reasons. -/
def deviceReasons (deviceID : String) : List String :=
  if deviceID = "" then ["Missing device ID"] else []

/-- Rule 4 risk value: 1.0 when the IP address is empty. -/
def ipRisk (ipAddress : String) : ℕ :=
  if ipAddress = "" then f1 else 0

/-- Rule 4 reasons. -/
def ipReasons (ipAddress : String) : List String :=
  if ipAddress = "" then ["Missing IP address"] else []

/-- Rule 5 risk value: 1.0 when the location is empty. -/
def locationRisk (location : String) : ℕ :=
  if location = "" then f1 else 0

/-- Rule 5 reasons. -/
def locationReasons (location : String) : List String :=
  if location = "" then ["Missing location"] else []

/-- The weighted float64 score followed by Go's `int(score * 100)`:
`score := a*0.35 + c*0.20 + d*0.15 + i*0.15 + l*0.15` evaluated left to
right in float64, then multiplied by 100 in float64 and truncated (the value
is nonnegative, so truncation is floor, i.e. natural division). -/
def scoreOf (a c d i l : ℕ) : ℕ :=
  fmul (fadd (fadd (fadd (fadd (fmul a f035) (fmul c f020)) (fmul d f015)) (fmul i f015)) (fmul l f015)) f100 / 2 ^ 60

/-- `finalScore` of CalculateRisk: the rule-based integer score (a Go int). -/
def ruleScore (tx : TransactionData) : ℤ :=
  (scoreOf (amountRisk tx.amount) (currencyRisk tx.currency) (deviceRisk tx.deviceID)
    (ipRisk tx.ipAddress) (locationRisk tx.location) : ℕ)

/-- The reasons accumulated by the five rules, in evaluation order. -/
def ruleReasons (tx : TransactionData) : List String :=
  amountReasons tx.amount ++ currencyReasons tx.currency ++ deviceReasons tx.deviceID
    ++ ipReasons tx.ipAddress ++ locationReasons tx.location

/-- Risk level from the rule-based score alone (`level := "LOW"; if ... `). -/
def ruleLevel (s : ℤ) : String :=
  if 70 ≤ s then "HIGH" else if 40 ≤ s then "MEDIUM" else "LOW"

/-- The fixed reason appended when the advisory call fails. -/
def aiUnavailableReason : String :=
  "AI analysis unavailable — escalated to HIGH for manual review"

/-! ### Escalation gate (services/risk_engine.go, AI gate of CalculateRisk)

The advisory call `AnalyzeTransaction(tx, finalScore)` performs network
I/O; `CalculateRisk` is therefore parameterised by the advisory function
`analyze`, whose `Except` result mirrors Go's `(AIResult, error)`. -/

/-- CalculateRisk: rule scoring, level mapping, the AI gate at score ≥ 40,
and the merge of the advisory outcome (Go `switch result.RecommendedAction`,
translated to the equivalent sequential string comparisons). -/
def CalculateRisk (analyze : TransactionData → ℤ → Except String AIResult)
    (tx : TransactionData) : RiskResult :=
  let finalScore := ruleScore tx
  let reasons := ruleReasons tx
  let level := ruleLevel finalScore
  if 40 ≤ finalScore then
    match analyze tx finalScore with
    | Except.error _ =>
        { score := finalScore
          level := "HIGH"
          reasons := reasons ++ [aiUnavailableReason]
          aiTriggered := true
          aiConfidence := 0
          aiSummary := ""
          aiRecommendation := ""
          aiFraudProbability := 0 }
    | Except.ok result =>
        { score := finalScore
          level :=
            if result.recommendedAction = "BLOCK" then "HIGH"
            else if result.recommendedAction = "REVIEW" then
              (if level = "LOW" then "MEDIUM" else level)
            else level
          reasons :=
            if result.recommendedAction = "BLOCK" then
              reasons ++ ["AI recommends BLOCK: " ++ result.reasoning]
            else if result.recommendedAction = "REVIEW" then
              reasons ++ ["AI recommends REVIEW: " ++ result.reasoning]
            else if result.recommendedAction = "APPROVE" then
              reasons ++ ["AI recommends APPROVE: " ++ result.reasoning]
            else reasons
          aiTriggered := true
          aiConfidence := result.confidence
          aiSummary := result.reasoning
          aiRecommendation := result.recommendedAction
          aiFraudProbability := result.fraudProbability }
  else
    { score := finalScore
      level := level
      reasons := reasons
      aiTriggered := false
      aiConfidence := 0
      aiSummary := ""
      aiRecommendation := ""
      aiFraudProbability := 0 }

/-! ### Advisory client (services/ai_service.go, AnalyzeTransaction)

The HTTP round trip and the JSON decoding are I/O; they are modelled by two
oracles: `call` produces the decoded Groq response (or a transport/decode
error), `parse` is `json.Unmarshal` into `AIResult` on the cleaned content.
Everything after that point — the env check, the API-error check, the empty
choices check, the code-fence stripping and the action validation — is
translated directly. -/

/-- The decoded Groq chat response: optional API error and a list of choice
message contents. -/
structure GroqResponse where
  error : Option String
  choices : List String

/-- The leading fence marker stripped first. -/
def fenceJson : String := "```json"

/-- The plain fence marker. -/
def fencePlain : String := "```"

/-- Go `strings.TrimPrefix`. -/
def trimPrefixStr (s p : String) : String :=
  if s.startsWith p then s.drop p.length else s

/-- Go `strings.TrimSuffix`. -/
def trimSuffixStr (s p : String) : String :=
  if s.endsWith p then s.dropRight p.length else s

/-- The code-fence stripping applied to the trimmed message content. -/
def stripFences (s : String) : String :=
  (trimSuffixStr (trimPrefixStr (trimPrefixStr s fenceJson) fencePlain) fencePlain).trim

/-- The validation of `RecommendedAction` against the closed action set
(the final `switch` of AnalyzeTransaction).  Only the action is validated;
the numeric fields are not inspected. -/
def validateAIResult (aiResult : AIResult) : Except String AIResult :=
  if aiResult.recommendedAction = "APPROVE" ∨ aiResult.recommendedAction = "REVIEW"
      ∨ aiResult.recommendedAction = "BLOCK" then
    Except.ok aiResult
  else
    Except.error ("AI returned unexpected action: " ++ aiResult.recommendedAction)

/-- AnalyzeTransaction: env-var credential check, the call, the API-error
and empty-choices checks, fence stripping, JSON parsing and action
validation, in the order of the Go source. -/
def AnalyzeTransaction (apiKey : String)
    (call : TransactionData → ℤ → Except String GroqResponse)
    (parse : String → Except String AIResult)
    (tx : TransactionData) (baselineScore : ℤ) : Except String AIResult :=
  if apiKey = "" then Except.error "GROQ_API_KEY is not set in environment"
  else
    match call tx baselineScore with
    | Except.error e => Except.error e
    | Except.ok resp =>
      match resp.error with
      | some msg => Except.error ("Groq API error: " ++ msg)
      | none =>
        match resp.choices with
        | [] => Except.error "Groq returned no choices"
        | content :: _ =>
          match parse (stripFences content.trim) with
          | Except.error e => Except.error ("AI returned invalid JSON: " ++ e)
          | Except.ok aiResult => validateAIResult aiResult

/-! ### Spec-side model of the rule score (section 4.1 of the spec)

Modelled from the spec: the spec states the score as exact real arithmetic,
`floor(100 × Σ(risk × weight))`.  These definitions follow the spec's words
and serve as the refinement target compared against `ruleScore`. -/

/-- Spec amount risk: tiered, exact rationals. -/
def specAmountRisk (amount : ℚ) : ℚ :=
  if 500000 < amount then 1
  else if 100000 < amount then 6 / 10
  else if 50000 < amount then 3 / 10
  else 0

/-- Spec currency risk: 1 iff the currency differs from the home currency. -/
def specCurrencyRisk (currency : String) : ℚ :=
  if currency ≠ "NGN" then 1 else 0

/-- Spec missing-field risk: 1 iff the field is the empty string. -/
def specMissingRisk (s : String) : ℚ :=
  if s = "" then 1 else 0

/-- Spec aggregate risk fraction `Σ(risk × weight)`. -/
def specAggregate (tx : TransactionData) : ℚ :=
  specAmountRisk tx.amount * (35 / 100) + specCurrencyRisk tx.currency * (20 / 100)
    + specMissingRisk tx.deviceID * (15 / 100) + specMissingRisk tx.ipAddress * (15 / 100)
    + specMissingRisk tx.location * (15 / 100)

/-- Spec score: `floor(aggregate × 100)`. -/
def specScore (tx : TransactionData) : ℤ :=
  ⌊specAggregate tx * 100⌋

/-! ### The score table

`ruleScore` depends only on which amount tier fires and which of the four
string conditions hold.  `specNatScore` is the exact-arithmetic score as a
natural number (aggregate and floor carried out over scaled integers): each
risk is a multiple of 1/10, so 100 times the aggregate is `N / 10` for the
scaled integer `N`, and the floor is natural division by 10. -/

/-- The exact-arithmetic rule score, over scaled integers. -/
def specNatScore (tx : TransactionData) : ℕ :=
  (35 * (if 500000 < tx.amount then 10 else if 100000 < tx.amount then 6
      else if 50000 < tx.amount then 3 else 0)
    + 20 * (if tx.currency ≠ "NGN" then 10 else 0)
    + 15 * (if tx.deviceID = "" then 10 else 0)
    + 15 * (if tx.ipAddress = "" then 10 else 0)
    + 15 * (if tx.location = "" then 10 else 0)) / 10

/-- On every input except the one float-sensitive combination (no amount
tier, home currency, all three optional fields missing), the float64 score
agrees with the exact-arithmetic score. -/
theorem ruleScore_eq_specNatScore (tx : TransactionData)
    (h : ¬(¬((50000 : ℚ) < tx.amount) ∧ tx.currency = "NGN" ∧ tx.deviceID = ""
        ∧ tx.ipAddress = "" ∧ tx.location = "")) :
    ruleScore tx = specNatScore tx := by
  unfold ruleScore specNatScore
  by_cases h1 : (500000 : ℚ) < tx.amount <;>
  by_cases h2 : (100000 : ℚ) < tx.amount <;>
  by_cases h3 : (50000 : ℚ) < tx.amount <;>
  by_cases hc : tx.currency = "NGN" <;>
  by_cases hd : tx.deviceID = "" <;>
  by_cases hi : tx.ipAddress = "" <;>
  by_cases hl : tx.location = "" <;>
  simp only [amountRisk, currencyRisk, deviceRisk, ipRisk, locationRisk, h1, h2, h3, hc, hd,
    hi, hl, ne_eq, not_true_eq_false, not_false_eq_true, if_true, if_false, ite_true,
    ite_false] <;>
  first
    | decide
    | exact absurd ⟨h3, hc, hd, hi, hl⟩ h

/-- On the float-sensitive combination the float64 score is 44 while the
exact-arithmetic score is 45: the three 0.15 contributions sum in float64
to 0.44999999999999996, and `int(score * 100)` truncates 44.999999999999993
down to 44. -/
theorem ruleScore_special (tx : TransactionData)
    (h3 : ¬((50000 : ℚ) < tx.amount)) (hc : tx.currency = "NGN") (hd : tx.deviceID = "")
    (hi : tx.ipAddress = "") (hl : tx.location = "") :
    ruleScore tx = 44 ∧ specNatScore tx = 45 := by
  have h1 : ¬((500000 : ℚ) < tx.amount) := fun hx => h3 (lt_trans (by norm_num) hx)
  have h2 : ¬((100000 : ℚ) < tx.amount) := fun hx => h3 (lt_trans (by norm_num) hx)
  unfold ruleScore specNatScore
  simp only [amountRisk, currencyRisk, deviceRisk, ipRisk, locationRisk, h1, h2, h3, hc, hd,
    hi, hl, ne_eq, not_true_eq_false, not_false_eq_true, if_true, if_false, ite_true,
    ite_false]
  decide

/-- Floor of the weighted sum over scaled integers: with every risk a
multiple of 1/10, 100 times the aggregate is an integer divided by 10, so
the floor is natural division. -/
theorem floor_weighted (a c d i l : ℕ) :
    ⌊(((a : ℚ) / 10) * (35 / 100) + ((c : ℚ) / 10) * (20 / 100) + ((d : ℚ) / 10) * (15 / 100)
        + ((i : ℚ) / 10) * (15 / 100) + ((l : ℚ) / 10) * (15 / 100)) * 100⌋
      = (((35 * a + 20 * c + 15 * d + 15 * i + 15 * l) / 10 : ℕ) : ℤ) := by
  have h : (((a : ℚ) / 10) * (35 / 100) + ((c : ℚ) / 10) * (20 / 100)
        + ((d : ℚ) / 10) * (15 / 100) + ((i : ℚ) / 10) * (15 / 100)
        + ((l : ℚ) / 10) * (15 / 100)) * 100
      = ((35 * a + 20 * c + 15 * d + 15 * i + 15 * l : ℕ) : ℚ) / ((10 : ℕ) : ℚ) := by
    push_cast
    ring
  rw [h, Rat.floor_natCast_div_natCast]
  omega

/-- The spec score coincides with its scaled-integer form. -/
theorem specScore_eq_specNatScore (tx : TransactionData) :
    specScore tx = specNatScore tx := by
  have ha : specAmountRisk tx.amount
      = (((if 500000 < tx.amount then 10 else if 100000 < tx.amount then 6
          else if 50000 < tx.amount then 3 else 0 : ℕ)) : ℚ) / 10 := by
    unfold specAmountRisk
    split_ifs <;> norm_num
  have hc : specCurrencyRisk tx.currency
      = (((if tx.currency ≠ "NGN" then 10 else 0 : ℕ)) : ℚ) / 10 := by
    unfold specCurrencyRisk
    split_ifs <;> norm_num
  have hm : ∀ s : String, specMissingRisk s = (((if s = "" then 10 else 0 : ℕ)) : ℚ) / 10 := by
    intro s
    unfold specMissingRisk
    split_ifs <;> norm_num
  unfold specScore specAggregate
  rw [ha, hc, hm tx.deviceID, hm tx.ipAddress, hm tx.location, floor_weighted]
  rfl

/-- The scaled-integer spec score is at most 100. -/
theorem specNatScore_le_100 (tx : TransactionData) : specNatScore tx ≤ 100 := by
  unfold specNatScore
  have h : (35 * (if 500000 < tx.amount then 10 else if 100000 < tx.amount then 6
        else if 50000 < tx.amount then 3 else 0)
      + 20 * (if tx.currency ≠ "NGN" then 10 else 0)
      + 15 * (if tx.deviceID = "" then 10 else 0)
      + 15 * (if tx.ipAddress = "" then 10 else 0)
      + 15 * (if tx.location = "" then 10 else 0)) ≤ 1000 := by
    split_ifs <;> norm_num
  calc (35 * (if 500000 < tx.amount then 10 else if 100000 < tx.amount then 6
        else if 50000 < tx.amount then 3 else 0)
      + 20 * (if tx.currency ≠ "NGN" then 10 else 0)
      + 15 * (if tx.deviceID = "" then 10 else 0)
      + 15 * (if tx.ipAddress = "" then 10 else 0)
      + 15 * (if tx.location = "" then 10 else 0)) / 10
      ≤ 1000 / 10 := Nat.div_le_div_right h
    _ = 100 := by norm_num

/-- The float64 rule score is at most 100 on every input. -/
theorem ruleScore_le_100 (tx : TransactionData) : ruleScore tx ≤ 100 := by
  by_cases h : ¬((50000 : ℚ) < tx.amount) ∧ tx.currency = "NGN" ∧ tx.deviceID = ""
      ∧ tx.ipAddress = "" ∧ tx.location = ""
  · obtain ⟨h3, hc, hd, hi, hl⟩ := h
    rw [(ruleScore_special tx h3 hc hd hi hl).1]
    norm_num
  · rw [ruleScore_eq_specNatScore tx h]
    exact_mod_cast specNatScore_le_100 tx

/-! ### Equational lemmas for the escalation gate -/

/-- CalculateRisk below the gate: the advisory service is not consulted. -/
theorem CalculateRisk_below (analyze : TransactionData → ℤ → Except String AIResult)
    (tx : TransactionData) (h : ¬(40 ≤ ruleScore tx)) :
    CalculateRisk analyze tx =
      { score := ruleScore tx
        level := ruleLevel (ruleScore tx)
        reasons := ruleReasons tx
        aiTriggered := false
        aiConfidence := 0
        aiSummary := ""
        aiRecommendation := ""
        aiFraudProbability := 0 } := by
  unfold CalculateRisk
  rw [if_neg h]

/-- CalculateRisk when the gate fires and the advisory call fails. -/
theorem CalculateRisk_error (analyze : TransactionData → ℤ → Except String AIResult)
    (tx : TransactionData) (e : String) (h : 40 ≤ ruleScore tx)
    (he : analyze tx (ruleScore tx) = Except.error e) :
    CalculateRisk analyze tx =
      { score := ruleScore tx
        level := "HIGH"
        reasons := ruleReasons tx ++ [aiUnavailableReason]
        aiTriggered := true
        aiConfidence := 0
        aiSummary := ""
        aiRecommendation := ""
        aiFraudProbability := 0 } := by
  unfold CalculateRisk
  rw [if_pos h, he]

/-- CalculateRisk when the gate fires and the advisory call succeeds. -/
theorem CalculateRisk_ok (analyze : TransactionData → ℤ → Except String AIResult)
    (tx : TransactionData) (r : AIResult) (h : 40 ≤ ruleScore tx)
    (hr : analyze tx (ruleScore tx) = Except.ok r) :
    CalculateRisk analyze tx =
      { score := ruleScore tx
        level :=
          if r.recommendedAction = "BLOCK" then "HIGH"
          else if r.recommendedAction = "REVIEW" then
            (if ruleLevel (ruleScore tx) = "LOW" then "MEDIUM" else ruleLevel (ruleScore tx))
          else ruleLevel (ruleScore tx)
        reasons :=
          if r.recommendedAction = "BLOCK" then
            ruleReasons tx ++ ["AI recommends BLOCK: " ++ r.reasoning]
          else if r.recommendedAction = "REVIEW" then
            ruleReasons tx ++ ["AI recommends REVIEW: " ++ r.reasoning]
          else if r.recommendedAction = "APPROVE" then
            ruleReasons tx ++ ["AI recommends APPROVE: " ++ r.reasoning]
          else ruleReasons tx
        aiTriggered := true
        aiConfidence := r.confidence
        aiSummary := r.reasoning
        aiRecommendation := r.recommendedAction
        aiFraudProbability := r.fraudProbability } := by
  unfold CalculateRisk
  rw [if_pos h, hr]

/-- The advisory service is consulted exactly when the rule score reaches
the gate threshold 40. -/
theorem CalculateRisk_triggered_iff (analyze : TransactionData → ℤ → Except String AIResult)
    (tx : TransactionData) :
    (CalculateRisk analyze tx).aiTriggered = true ↔ 40 ≤ ruleScore tx := by
  by_cases h : 40 ≤ ruleScore tx
  · cases hr : analyze tx (ruleScore tx) with
    | error e => rw [CalculateRisk_error analyze tx e h hr]; simpa using h
    | ok r => rw [CalculateRisk_ok analyze tx r h hr]; simpa using h
  · rw [CalculateRisk_below analyze tx h]
    simpa using h

/-- Rank of a level string in the order LOW < MEDIUM < HIGH. -/
def levelRank (s : String) : ℕ :=
  if s = "HIGH" then 2 else if s = "MEDIUM" then 1 else 0

/-- The rank of any rule-based level is at most 2. -/
theorem levelRank_ruleLevel_le_two (s : ℤ) : levelRank (ruleLevel s) ≤ 2 := by
  unfold ruleLevel levelRank
  split_ifs <;> norm_num

/-- A score at or past the gate threshold never maps to level LOW. -/
theorem ruleLevel_ne_LOW (s : ℤ) (h : 40 ≤ s) : ruleLevel s ≠ "LOW" := by
  unfold ruleLevel
  split_ifs <;> decide

/-- Level strings decode to the score thresholds. -/
theorem ruleLevel_iff (s : ℤ) :
    (ruleLevel s = "HIGH" ↔ 70 ≤ s) ∧ (ruleLevel s = "MEDIUM" ↔ 40 ≤ s ∧ s < 70)
      ∧ (ruleLevel s = "LOW" ↔ s < 40) := by
  unfold ruleLevel
  split_ifs with h1 h2 <;> refine ⟨?_, ?_, ?_⟩ <;> simp <;> omega

/-! ### Concrete fixtures -/

/-- The empty-fields transaction of the spec's numerical scenario: zero
amount, home currency, all three optional fields missing. -/
def tx0 : TransactionData := ⟨"u1", "t1", 0, "NGN", "", "", ""⟩

/-- The round-trip transaction of the spec: 250000 in a foreign currency
with device, IP and location present (rule score 41). -/
def tx1 : TransactionData := ⟨"u2", "t2", 250000, "USD", "10.0.0.1", "dev-1", "Lagos"⟩

/-- An advisory function that always fails with a transport error. -/
def errAnalyze : TransactionData → ℤ → Except String AIResult :=
  fun _ _ => Except.error "Groq HTTP request failed: connection refused"

/-- A well-formed REVIEW opinion. -/
def reviewOpinion : AIResult := ⟨1 / 2, "REVIEW", "needs another look", 3 / 4⟩

/-- An advisory function that always returns the REVIEW opinion. -/
def reviewAnalyze : TransactionData → ℤ → Except String AIResult :=
  fun _ _ => Except.ok reviewOpinion

/-- A call oracle that returns one successful choice. -/
def okCall : TransactionData → ℤ → Except String GroqResponse :=
  fun _ _ => Except.ok ⟨none, ["ok"]⟩

/-- A parse oracle that returns a fixed opinion. -/
def parseTo (r : AIResult) : String → Except String AIResult :=
  fun _ => Except.ok r

/-- A well-formed BLOCK opinion. -/
def goodOpinion : AIResult := ⟨1 / 2, "BLOCK", "suspicious pattern", 3 / 4⟩

/-- An opinion whose probability fields are outside [0,1] but whose action
is in the closed set. -/
def badOpinion : AIResult := ⟨2, "APPROVE", "looks fine", 2⟩

/-! ### The claims -/

/-- Claim C1: escalate-only invariant — for every transaction and every
advisory outcome, the final level of the verdict returned by CalculateRisk
is at least the rule-based level in the order LOW < MEDIUM < HIGH; no
advisory outcome ever lowers the level. -/
theorem C1_escalate_only (analyze : TransactionData → ℤ → Except String AIResult)
    (tx : TransactionData) :
    levelRank (ruleLevel (ruleScore tx)) ≤ levelRank ((CalculateRisk analyze tx).level) := by
  by_cases h : 40 ≤ ruleScore tx
  · cases hr : analyze tx (ruleScore tx) with
    | error e =>
        rw [CalculateRisk_error analyze tx e h hr]
        have h2 := levelRank_ruleLevel_le_two (ruleScore tx)
        simpa [levelRank] using h2
    | ok r =>
        rw [CalculateRisk_ok analyze tx r h hr]
        by_cases hb : r.recommendedAction = "BLOCK"
        · have h2 := levelRank_ruleLevel_le_two (ruleScore tx)
          simpa [hb, levelRank] using h2
        · by_cases hv : r.recommendedAction = "REVIEW"
          · by_cases hlow : ruleLevel (ruleScore tx) = "LOW"
            · simp [hb, hv, hlow, levelRank]
            · simp [hb, hv, hlow]
          · simp [hb, hv]
  · rw [CalculateRisk_below analyze tx h]

/-- Claim C2: fail-safe on advisory failure — when the gate fires and the
advisory call returns any error, the verdict level is HIGH regardless of
the rule level, the fixed unavailability reason is appended, the advisory
fields are zero-valued/empty, and advisory_triggered is true. -/
theorem C2_fail_safe (analyze : TransactionData → ℤ → Except String AIResult)
    (tx : TransactionData) (e : String) (h40 : 40 ≤ ruleScore tx)
    (he : analyze tx (ruleScore tx) = Except.error e) :
    (CalculateRisk analyze tx).level = "HIGH"
      ∧ (CalculateRisk analyze tx).reasons = ruleReasons tx ++ [aiUnavailableReason]
      ∧ (CalculateRisk analyze tx).aiTriggered = true
      ∧ (CalculateRisk analyze tx).aiConfidence = 0
      ∧ (CalculateRisk analyze tx).aiFraudProbability = 0
      ∧ (CalculateRisk analyze tx).aiRecommendation = ""
      ∧ (CalculateRisk analyze tx).aiSummary = "" := by
  rw [CalculateRisk_error analyze tx e h40 he]
  exact ⟨rfl, rfl, rfl, rfl, rfl, rfl, rfl⟩

/-- Witness for C2 at the round-trip transaction (score 41) with a failing
advisory call. -/
theorem C2_fail_safe_witness :
    (CalculateRisk errAnalyze tx1).level = "HIGH"
      ∧ (CalculateRisk errAnalyze tx1).reasons = ruleReasons tx1 ++ [aiUnavailableReason]
      ∧ (CalculateRisk errAnalyze tx1).aiTriggered = true
      ∧ (CalculateRisk errAnalyze tx1).aiConfidence = 0
      ∧ (CalculateRisk errAnalyze tx1).aiFraudProbability = 0
      ∧ (CalculateRisk errAnalyze tx1).aiRecommendation = ""
      ∧ (CalculateRisk errAnalyze tx1).aiSummary = "" :=
  C2_fail_safe errAnalyze tx1 "Groq HTTP request failed: connection refused" (by decide) rfl

/-- Claim C3: advisory gate boundary — the advisory service is consulted
(advisory_triggered is true) if and only if the rule-based score is at
least 40. -/
theorem C3_gate_boundary (analyze : TransactionData → ℤ → Except String AIResult)
    (tx : TransactionData) :
    (CalculateRisk analyze tx).aiTriggered = true ↔ 40 ≤ ruleScore tx :=
  CalculateRisk_triggered_iff analyze tx

/-- Claim C4 (amended): the float64 rule score equals the exact-arithmetic
spec formula floor(100 × Σ(risk × weight)) on every transaction except the
single combination where only the three 0.15-weight rules fire (no amount
tier, home currency, device, IP and location all empty); there float64
truncation yields 44 while the exact formula gives 45. -/
theorem C4_rule_formula_amended (tx : TransactionData) :
    (¬(¬((50000 : ℚ) < tx.amount) ∧ tx.currency = "NGN" ∧ tx.deviceID = ""
        ∧ tx.ipAddress = "" ∧ tx.location = "") → ruleScore tx = specScore tx)
      ∧ ((¬((50000 : ℚ) < tx.amount) ∧ tx.currency = "NGN" ∧ tx.deviceID = ""
        ∧ tx.ipAddress = "" ∧ tx.location = "") → ruleScore tx = 44 ∧ specScore tx = 45) := by
  constructor
  · intro h
    rw [ruleScore_eq_specNatScore tx h, specScore_eq_specNatScore tx]
  · rintro ⟨h3, hc, hd, hi, hl⟩
    obtain ⟨ha, hb⟩ := ruleScore_special tx h3 hc hd hi hl
    refine ⟨ha, ?_⟩
    rw [specScore_eq_specNatScore tx, hb]
    rfl

/-- Counterexample for C4 as stated: on the empty-fields transaction the
float64 score is 44 but the exact formula gives 45. -/
theorem C4_rule_formula_counterexample :
    ruleScore tx0 = 44 ∧ specScore tx0 = 45 ∧ ruleScore tx0 ≠ specScore tx0 := by
  have hs : specScore tx0 = 45 := by
    rw [specScore_eq_specNatScore tx0]
    decide
  refine ⟨by decide, hs, ?_⟩
  rw [hs]
  decide

/-- Witness for C4 at the round-trip transaction, which is not the
float-sensitive combination. -/
theorem C4_rule_formula_witness : ruleScore tx1 = specScore tx1 :=
  (C4_rule_formula_amended tx1).1 (by decide)

/-- Claim C5: for every transaction with nonnegative amount the rule score
lies in [0, 100], and the pre-advisory level is HIGH iff score ≥ 70,
MEDIUM iff 40 ≤ score < 70, LOW otherwise. -/
theorem C5_bounds_levels (tx : TransactionData) (_hamt : 0 ≤ tx.amount) :
    (0 ≤ ruleScore tx ∧ ruleScore tx ≤ 100)
      ∧ (ruleLevel (ruleScore tx) = "HIGH" ↔ 70 ≤ ruleScore tx)
      ∧ (ruleLevel (ruleScore tx) = "MEDIUM" ↔ 40 ≤ ruleScore tx ∧ ruleScore tx < 70)
      ∧ (ruleLevel (ruleScore tx) = "LOW" ↔ ruleScore tx < 40) := by
  exact ⟨⟨Int.natCast_nonneg _, ruleScore_le_100 tx⟩, ruleLevel_iff (ruleScore tx)⟩

/-- Witness for C5 at the round-trip transaction. -/
theorem C5_bounds_levels_witness : 0 ≤ ruleScore tx1 ∧ ruleScore tx1 ≤ 100 :=
  (C5_bounds_levels tx1 (by norm_num [tx1])).1

/-- Claim C6 (amended): on the empty-fields scenario (amount 0, home
currency, device, IP and location all empty) the rule score is 44 — not
the 45 of exact arithmetic, because the three 0.15 contributions sum in
float64 to 0.44999999999999996 — the pre-advisory level is still MEDIUM
and the advisory service is still consulted. -/
theorem C6_empty_fields_amended :
    ruleScore tx0 = 44 ∧ ruleLevel (ruleScore tx0) = "MEDIUM"
      ∧ ∀ analyze : TransactionData → ℤ → Except String AIResult,
          (CalculateRisk analyze tx0).aiTriggered = true := by
  refine ⟨by decide, by decide, fun analyze => ?_⟩
  exact (CalculateRisk_triggered_iff analyze tx0).mpr (by decide)

/-- Counterexample for C6 as stated: the score of the empty-fields
scenario is not 45. -/
theorem C6_empty_fields_counterexample : ruleScore tx0 ≠ 45 ∧ ruleScore tx0 = 44 := by
  exact ⟨by decide, by decide⟩

/-- Claim C7 (amended): the advisory client validates only the
recommended action: a parsed opinion is accepted exactly when its action
is in the closed set, and every opinion returned by AnalyzeTransaction has
an action in the closed set; the probability fields are not checked. -/
theorem C7_action_validation_amended (apiKey : String)
    (call : TransactionData → ℤ → Except String GroqResponse)
    (parse : String → Except String AIResult) (tx : TransactionData) (s : ℤ) (r : AIResult) :
    (AnalyzeTransaction apiKey call parse tx s = Except.ok r →
        (r.recommendedAction = "APPROVE" ∨ r.recommendedAction = "REVIEW"
          ∨ r.recommendedAction = "BLOCK"))
      ∧ (validateAIResult r = Except.ok r ↔
        (r.recommendedAction = "APPROVE" ∨ r.recommendedAction = "REVIEW"
          ∨ r.recommendedAction = "BLOCK")) := by
  constructor
  · intro h
    unfold AnalyzeTransaction at h
    split at h
    · exact absurd h (by simp)
    · split at h
      · exact absurd h (by simp)
      · split at h
        · exact absurd h (by simp)
        · split at h
          · exact absurd h (by simp)
          · split at h
            · exact absurd h (by simp)
            · unfold validateAIResult at h
              split_ifs at h with hv
              injection h with h2
              subst h2
              exact hv
  · constructor
    · intro h
      unfold validateAIResult at h
      split_ifs at h with hv
      exact hv
    · intro hv
      unfold validateAIResult
      rw [if_pos hv]

/-- Counterexample for C7 as stated: an opinion whose fraud probability
and confidence are 2 (outside [0,1]) but whose action is APPROVE is
returned by the client as a valid opinion. -/
theorem C7_action_validation_counterexample :
    AnalyzeTransaction "key" okCall (parseTo badOpinion) tx1 41 = Except.ok badOpinion
      ∧ 1 < badOpinion.fraudProbability ∧ 1 < badOpinion.confidence := by
  refine ⟨rfl, ?_, ?_⟩ <;> norm_num [badOpinion]

/-- Witness for C7 on a successful BLOCK round trip. -/
theorem C7_action_validation_witness :
    goodOpinion.recommendedAction = "APPROVE" ∨ goodOpinion.recommendedAction = "REVIEW"
      ∨ goodOpinion.recommendedAction = "BLOCK" :=
  (C7_action_validation_amended "key" okCall (parseTo goodOpinion) tx1 41 goodOpinion).1 rfl

/-- Claim C8 (amended): a missing advisory credential is not a startup
failure: it is detected inside the advisory client on each consultation,
returned as an error, and converted by the escalation gate into the
fail-safe HIGH verdict with the unavailability reason. -/
theorem C8_credential_amended (call : TransactionData → ℤ → Except String GroqResponse)
    (parse : String → Except String AIResult) (tx : TransactionData)
    (h40 : 40 ≤ ruleScore tx) :
    AnalyzeTransaction "" call parse tx (ruleScore tx)
        = Except.error "GROQ_API_KEY is not set in environment"
      ∧ (CalculateRisk (AnalyzeTransaction "" call parse) tx).level = "HIGH"
      ∧ (CalculateRisk (AnalyzeTransaction "" call parse) tx).reasons
        = ruleReasons tx ++ [aiUnavailableReason] := by
  have he : AnalyzeTransaction "" call parse tx (ruleScore tx)
      = Except.error "GROQ_API_KEY is not set in environment" := by
    unfold AnalyzeTransaction
    rw [if_pos rfl]
  refine ⟨he, ?_, ?_⟩ <;> rw [CalculateRisk_error _ tx _ h40 he]

/-- Counterexample for C8 as stated: with the credential unset, a single
request evaluation (score 41, gate fired) itself discovers the missing
credential — the client returns the credential error and the verdict
carries the advisory-unavailable reason, so detection is per-request, not
at startup. -/
theorem C8_credential_counterexample :
    AnalyzeTransaction "" okCall (parseTo goodOpinion) tx1 (ruleScore tx1)
        = Except.error "GROQ_API_KEY is not set in environment"
      ∧ (CalculateRisk (AnalyzeTransaction "" okCall (parseTo goodOpinion)) tx1).reasons
        = ruleReasons tx1 ++ [aiUnavailableReason] := by
  have he : AnalyzeTransaction "" okCall (parseTo goodOpinion) tx1 (ruleScore tx1)
      = Except.error "GROQ_API_KEY is not set in environment" := rfl
  refine ⟨he, ?_⟩
  rw [CalculateRisk_error _ tx1 _ (by decide) he]

/-- Witness for C8 at the round-trip transaction. -/
theorem C8_credential_witness :
    AnalyzeTransaction "" okCall (parseTo goodOpinion) tx1 (ruleScore tx1)
        = Except.error "GROQ_API_KEY is not set in environment"
      ∧ (CalculateRisk (AnalyzeTransaction "" okCall (parseTo goodOpinion)) tx1).level
        = "HIGH" := by
  have h := C8_credential_amended okCall (parseTo goodOpinion) tx1 (by decide)
  exact ⟨h.1, h.2.1⟩

/-- Claim C9: whenever the advisory service is consulted the rule-based
level is already MEDIUM or HIGH (never LOW), and a successful REVIEW
recommendation never changes the level — the LOW-to-MEDIUM upgrade branch
is unreachable. -/
theorem C9_review_no_change (analyze : TransactionData → ℤ → Except String AIResult)
    (tx : TransactionData) (r : AIResult) :
    ((40 : ℤ) ≤ ruleScore tx → ruleLevel (ruleScore tx) ≠ "LOW")
      ∧ (analyze tx (ruleScore tx) = Except.ok r → r.recommendedAction = "REVIEW" →
          (CalculateRisk analyze tx).level = ruleLevel (ruleScore tx)) := by
  refine ⟨ruleLevel_ne_LOW (ruleScore tx), fun hr hrev => ?_⟩
  by_cases h : 40 ≤ ruleScore tx
  · rw [CalculateRisk_ok analyze tx r h hr]
    have hneq := ruleLevel_ne_LOW (ruleScore tx) h
    simp [hrev, hneq]
  · rw [CalculateRisk_below analyze tx h]

/-- Witness for C9: a REVIEW opinion on the round-trip transaction leaves
the MEDIUM rule level unchanged. -/
theorem C9_review_no_change_witness :
    (CalculateRisk reviewAnalyze tx1).level = ruleLevel (ruleScore tx1)
      ∧ ruleLevel (ruleScore tx1) ≠ "LOW" :=
  ⟨(C9_review_no_change reviewAnalyze tx1 reviewOpinion).2 rfl rfl,
   (C9_review_no_change reviewAnalyze tx1 reviewOpinion).1 (by decide)⟩

/-- Claim C10: the numeric score of the returned verdict always equals the
rule-based score; no advisory outcome modifies it. -/
theorem C10_score_frame (analyze : TransactionData → ℤ → Except String AIResult)
    (tx : TransactionData) :
    (CalculateRisk analyze tx).score = ruleScore tx := by
  by_cases h : 40 ≤ ruleScore tx
  · cases hr : analyze tx (ruleScore tx) with
    | error e => rw [CalculateRisk_error analyze tx e h hr]
    | ok r => rw [CalculateRisk_ok analyze tx r h hr]
  · rw [CalculateRisk_below analyze tx h]

end Asguard
